import Mathlib

/-!
Shallow embedding of the content-gap analysis engine (`src/gap_finder.py`,
class `ContentGapFinder`) of the numbpill3d/seo-tool repository, together
with theorems settling the frozen claims about its specification.

Modelling conventions:
* Python `str` values are Lean `String`s; tokenization works over `List Char`
  (the `data` of a string) so that everything reduces in the kernel.
* Python floats are modelled as exact rationals (`ℚ`).
* Python dicts are modelled as association lists in insertion order; the
  engine only ever reads the *keys* of `user_keywords`, so that map is
  embedded as a `List String` of its keys.
* Python `set`s of tokens are `Finset (List Char)`.
* `dict(iterable_of_strings)` (as it appears in `generate_content_strategy`)
  raises `ValueError` unless every element has length 2; the embedding of
  that function therefore lives in `Except String`.
-/

namespace GapFinder

/-- Python `str.split()` (no separator): split on whitespace runs, dropping
empty fragments.  Auxiliary: accumulate the current word (reversed). -/
def splitWsAux : List Char → List Char → List (List Char)
  | cur, [] => [cur.reverse]
  | cur, c :: cs =>
    if c.isWhitespace then cur.reverse :: splitWsAux [] cs
    else splitWsAux (c :: cur) cs

/-- Python `s.split()`: whitespace-separated tokens, empties dropped. -/
def pySplit (s : List Char) : List (List Char) :=
  (splitWsAux [] s).filter (fun t => !t.isEmpty)

/-- Python `s.lower()` (character-wise lowercasing). -/
def pyLower (s : List Char) : List Char :=
  s.map Char.toLower

/-- `len(keyword.split())` in the source. -/
def wordCount (keyword : String) : ℕ :=
  (pySplit keyword.data).length

/-- `set(s.lower().split())` in the source: the token set of a keyword. -/
def tokenSet (s : String) : Finset (List Char) :=
  (pySplit (pyLower s.data)).toFinset

/-- Python's substring containment `a in b` on strings. -/
def isSubstrOf (a b : List Char) : Bool :=
  (List.range (b.length + 1)).any fun i => a.isPrefixOf (b.drop i)

/-- `any(indicator in keyword_lower for indicator in indicators)` in the
source, where `keyword_lower` is an already-lowercased keyword. -/
def matchesAny (indicators : List String) (keywordLower : List Char) : Bool :=
  indicators.any fun indicator => isSubstrOf indicator.data keywordLower

/-- `self.commercial_indicators` (a Python set literal; order is irrelevant
because it is only consumed through `any`). -/
def commercial_indicators : List String :=
  ["buy", "purchase", "order", "shop", "sale", "deal", "discount",
   "cheap", "best", "top", "review", "compare", "vs", "versus"]

/-- `self.informational_indicators`. -/
def informational_indicators : List String :=
  ["how", "what", "why", "when", "where", "guide", "tutorial",
   "tips", "learn", "understand", "explain", "definition"]

/-- `self.local_indicators`. -/
def local_indicators : List String :=
  ["near", "local", "nearby", "around", "close", "in", "at"]

/-- `self.transactional_indicators`. -/
def transactional_indicators : List String :=
  ["buy", "purchase", "order", "book", "hire", "contact",
   "quote", "price", "cost", "signup", "register"]

/-- `self.navigational_indicators`. -/
def navigational_indicators : List String :=
  ["login", "website", "homepage", "official", "store",
   "shop", "account", "dashboard"]

/-- `self.competitive_terms`. -/
def competitive_terms : List String :=
  ["best", "top", "cheap", "free", "review", "buy", "online",
   "service", "company", "business", "professional"]

/-- The per-keyword statistics record consumed from `competitor_keywords`
(the fields `analyze_keyword_opportunity` reads via `.get`). -/
structure KeywordData where
  frequency : ℕ
  document_frequency : ℕ
  avg_importance : ℚ
deriving DecidableEq, Repr

/-- The opportunity record built by `analyze_keyword_opportunity`.
`gap_type` is `none` for step-1 (direct-absence) records and
`some "semantic"` when `find_semantic_gaps` tags the record. -/
structure Opportunity where
  keyword : String
  opportunity_score : ℚ
  priority : String
  competitor_frequency : ℕ
  found_in_sites : ℕ
  avg_competitor_importance : ℚ
  keyword_type : String
  word_count : ℕ
  estimated_difficulty : String
  search_intent : String
  recommendations : List String
  related_user_keywords : List String
  gap_type : Option String
deriving DecidableEq, Repr

/-- `ContentGapFinder.calculate_content_relevance` (src/gap_finder.py
lines 195-223): Jaccard of token sets, weighted by 3, summed over the
user's keywords, clamped at 15; `0` for an empty user map. -/
def calculate_content_relevance (keyword : String) (user_keywords : List String) : ℚ :=
  if user_keywords = [] then 0
  else
    let keyword_words := tokenSet keyword
    let relevance_score := (user_keywords.map fun user_keyword =>
      let user_words := tokenSet user_keyword
      let overlap := (keyword_words ∩ user_words).card
      let union := (keyword_words ∪ user_words).card
      if 0 < union then ((overlap : ℚ) / (union : ℚ)) * 3 else 0).sum
    min relevance_score 15

/-- `ContentGapFinder.calculate_opportunity_score` (lines 158-193):
five independently capped components, total clamped at 100. -/
def calculate_opportunity_score (frequency document_frequency : ℕ)
    (avg_importance : ℚ) (keyword : String) (user_keywords : List String) : ℚ :=
  let frequency_score : ℚ := min ((frequency : ℚ) * 2) 30
  let doc_freq_score : ℚ := min ((document_frequency : ℚ) * 5) 25
  let importance_score : ℚ := min (avg_importance / 5) 20
  let length_bonus : ℚ := min ((wordCount keyword : ℚ) * 2) 10
  let relevance_bonus := calculate_content_relevance keyword user_keywords
  min (frequency_score + doc_freq_score + importance_score + length_bonus + relevance_bonus) 100

/-- `ContentGapFinder.determine_priority` (lines 225-240), with the
instance's `priority_thresholds` (`high = 75`, `medium = 50`; the `low = 25`
entry is never consulted by the code). -/
def determine_priority (opportunity_score : ℚ) : String :=
  if 75 ≤ opportunity_score then "high"
  else if 50 ≤ opportunity_score then "medium"
  else "low"

/-- `ContentGapFinder.classify_keyword_type` (lines 260-294): indicator
substring tests in the order commercial, local, informational, then a
word-count fallback. -/
def classify_keyword_type (keyword : String) : String :=
  let word_count := wordCount keyword
  let keyword_lower := pyLower keyword.data
  if matchesAny commercial_indicators keyword_lower then "commercial"
  else if matchesAny local_indicators keyword_lower then "local"
  else if matchesAny informational_indicators keyword_lower then "informational"
  else if word_count = 1 then "head"
  else if word_count = 2 then "body"
  else "long_tail"

/-- `ContentGapFinder.estimate_keyword_difficulty` (lines 296-325). -/
def estimate_keyword_difficulty (keyword : String) : String :=
  let word_count := wordCount keyword
  let keyword_lower := pyLower keyword.data
  if word_count = 1 then "high"
  else if matchesAny competitive_terms keyword_lower then
    (if word_count ≤ 2 then "high" else "medium")
  else if 4 ≤ word_count then "low"
  else "medium"

/-- `ContentGapFinder.classify_search_intent` (lines 327-348). -/
def classify_search_intent (keyword : String) : String :=
  let keyword_lower := pyLower keyword.data
  if matchesAny transactional_indicators keyword_lower then "transactional"
  else if matchesAny navigational_indicators keyword_lower then "navigational"
  else if matchesAny informational_indicators keyword_lower then "informational"
  else "commercial"

/-- `ContentGapFinder.generate_keyword_recommendations` (lines 350-392):
conditional template strings, appended in source order. -/
def generate_keyword_recommendations (keyword : String) (competitor_data : KeywordData) :
    List String :=
  let frequency := competitor_data.frequency
  let document_frequency := competitor_data.document_frequency
  let recs1 : List String :=
    if 10 < frequency then
      ["High-priority target: appears " ++ toString frequency ++ " times across competitor sites"]
    else []
  let recs2 : List String :=
    if 3 < document_frequency then
      ["Strong opportunity: used by " ++ toString document_frequency ++ " different competitors"]
    else []
  let keyword_type := classify_keyword_type keyword
  let recs3 : List String :=
    if keyword_type = "informational" then ["Create comprehensive guide or tutorial content"]
    else if keyword_type = "commercial" then
      ["Optimize product/service pages and create comparison content"]
    else if keyword_type = "local" then
      ["Optimize for local SEO and create location-specific content"]
    else if keyword_type = "long_tail" then ["Target with specific, detailed content pages"]
    else []
  let intent := classify_search_intent keyword
  let recs4 : List String :=
    if intent = "transactional" then ["Focus on conversion-optimized landing pages"]
    else if intent = "informational" then ["Create educational blog posts or resource pages"]
    else []
  recs1 ++ recs2 ++ recs3 ++ recs4

/-- `ContentGapFinder.find_related_user_keywords` (lines 394-421): user
keys with positive token overlap and Jaccard at least `SIMILARITY_THRESHOLD`
(= 0.3), in map-iteration order, truncated to 5. -/
def find_related_user_keywords (keyword : String) (user_keywords : List String) :
    List String :=
  if user_keywords = [] then []
  else
    let keyword_words := tokenSet keyword
    let related_keywords := user_keywords.filter fun user_keyword =>
      let user_words := tokenSet user_keyword
      let overlap := (keyword_words ∩ user_words).card
      if 0 < overlap then
        decide ((3 : ℚ) / 10 ≤ (overlap : ℚ) / (((keyword_words ∪ user_words).card : ℚ)))
      else false
    related_keywords.take 5

/-- `ContentGapFinder.calculate_semantic_similarity` (lines 460-492):
Jaccard of token sets plus a capped partial-substring bonus, clamped at 1;
`0` when either token set is empty. -/
def calculate_semantic_similarity (keyword1 keyword2 : String) : ℚ :=
  let words1 := tokenSet keyword1
  let words2 := tokenSet keyword2
  if words1 = ∅ ∨ words2 = ∅ then 0
  else
    let intersection := (words1 ∩ words2).card
    let union := (words1 ∪ words2).card
    let jaccard_similarity : ℚ := if 0 < union then (intersection : ℚ) / (union : ℚ) else 0
    let partial_matches :=
      ((words1 ×ˢ words2).filter fun p =>
        (isSubstrOf p.1 p.2 || isSubstrOf p.2 p.1) = true).card
    let partial_bonus : ℚ := min ((partial_matches : ℚ) * (1 / 10)) (3 / 10)
    min (jaccard_similarity + partial_bonus) 1

/-- `ContentGapFinder.analyze_keyword_opportunity` (lines 109-156). -/
def analyze_keyword_opportunity (keyword : String) (competitor_data : KeywordData)
    (user_keywords : List String) : Opportunity :=
  let frequency := competitor_data.frequency
  let document_frequency := competitor_data.document_frequency
  let avg_importance := competitor_data.avg_importance
  let opportunity_score :=
    calculate_opportunity_score frequency document_frequency avg_importance keyword user_keywords
  { keyword := keyword
    opportunity_score := opportunity_score
    priority := determine_priority opportunity_score
    competitor_frequency := frequency
    found_in_sites := document_frequency
    avg_competitor_importance := avg_importance
    keyword_type := classify_keyword_type keyword
    word_count := wordCount keyword
    estimated_difficulty := estimate_keyword_difficulty keyword
    search_intent := classify_search_intent keyword
    recommendations := generate_keyword_recommendations keyword competitor_data
    related_user_keywords := find_related_user_keywords keyword user_keywords
    gap_type := none }

/-- `ContentGapFinder.find_semantic_gaps` (lines 423-458): empty for an
empty user map; otherwise one `gap_type = "semantic"` record per competitor
keyword that no user keyword matches at the similarity threshold. -/
def find_semantic_gaps (competitor_keywords : List (String × KeywordData))
    (user_keywords : List String) (similarity_threshold : ℚ) : List Opportunity :=
  if user_keywords = [] then []
  else
    competitor_keywords.filterMap fun ckd =>
      let has_similar := user_keywords.any fun user_keyword =>
        decide (similarity_threshold ≤ calculate_semantic_similarity ckd.1 user_keyword)
      if has_similar then none
      else some { analyze_keyword_opportunity ckd.1 ckd.2 user_keywords with
                    gap_type := some "semantic" }

/-- Comparison key of the final sort: descending `opportunity_score`
(`missing_opportunities.sort(key=..., reverse=True)`). -/
def scoreGe (a b : Opportunity) : Prop :=
  b.opportunity_score ≤ a.opportunity_score

instance : DecidableRel scoreGe := fun a b =>
  (inferInstance : Decidable (b.opportunity_score ≤ a.opportunity_score))

instance : IsTotal Opportunity scoreGe :=
  ⟨fun a b => le_total b.opportunity_score a.opportunity_score⟩

instance : IsTrans Opportunity scoreGe :=
  ⟨fun _ _ _ h1 h2 => le_trans h2 h1⟩

/-- Python's stable `list.sort(key=lambda x: x['opportunity_score'],
reverse=True)`: a stable descending insertion sort (equal keys keep their
original relative order, as `List.orderedInsert` places the incoming earlier
element in front of later equal ones). -/
def sortOpportunitiesDesc (l : List Opportunity) : List Opportunity :=
  l.insertionSort scoreGe

/-- The concatenation sorted by `find_missing_keywords` (lines 81-103):
step-1 direct-absence records (competitor iteration order) followed by the
step-3 semantic-gap records. -/
def missingOpportunitiesUnsorted (competitor_keywords : List (String × KeywordData))
    (user_keywords : List String) (similarity_threshold : ℚ) : List Opportunity :=
  let directly_missing :=
    competitor_keywords.filter fun ckd => !(user_keywords.contains ckd.1)
  let step1 := directly_missing.map fun ckd =>
    analyze_keyword_opportunity ckd.1 ckd.2 user_keywords
  step1 ++ find_semantic_gaps competitor_keywords user_keywords similarity_threshold

/-- `ContentGapFinder.find_missing_keywords` (lines 67-107). -/
def find_missing_keywords (competitor_keywords : List (String × KeywordData))
    (user_keywords : List String) (similarity_threshold : ℚ) : List Opportunity :=
  sortOpportunitiesDesc
    (missingOpportunitiesUnsorted competitor_keywords user_keywords similarity_threshold)

/-- The keys of a Python `defaultdict` built by grouping, in first-insertion
order. -/
def firstOccurrences (l : List String) : List String :=
  l.foldl (fun acc x => if acc.contains x then acc else acc ++ [x]) []

/-- Grouping of opportunities by a string key, as the `defaultdict(list)`
loops of `generate_content_strategy` build it: keys in first-occurrence
order, each group in original order. -/
def groupByKey (key_of : Opportunity → String) (l : List Opportunity) :
    List (String × List Opportunity) :=
  (firstOccurrences (l.map key_of)).map fun k => (k, l.filter fun o => key_of o == k)

/-- Python `dict(iterable)` applied to an iterable of *strings*, as in
`dict(type_groups.keys())`: each string must be a length-2 sequence, which
then contributes the entry `(first char, second char)`; any string whose
length is not 2 raises `ValueError`. -/
def pyDictOfStrings : List String → Except String (List (String × String))
  | [] => Except.ok []
  | s :: rest =>
    match s.data with
    | [c1, c2] =>
      (pyDictOfStrings rest).map fun d => (String.singleton c1, String.singleton c2) :: d
    | _ =>
      Except.error ("ValueError: dictionary update sequence element has length "
        ++ toString s.data.length ++ "; 2 is required")

/-- Lookup of a group in an association list: `groups[k]` is the group when
the key is present and the empty list otherwise (matching the
`'k' in groups and groups['k']` / `len(groups['k'])` uses in the source). -/
def groupLookup (groups : List (String × List Opportunity)) (k : String) :
    List Opportunity :=
  ((groups.find? fun p => p.1 == k).map Prod.snd).getD []

/-- `ContentGapFinder.generate_action_plan` (lines 545-581). -/
def generate_action_plan (priority_groups type_groups intent_groups :
    List (String × List Opportunity)) : List String :=
  let a1 : List String :=
    if groupLookup priority_groups "high" ≠ [] then
      ["Immediately target " ++ toString (groupLookup priority_groups "high").length
        ++ " high-priority keywords"]
    else []
  let a2 : List String :=
    if (type_groups.find? fun p => p.1 == "informational").isSome then
      ["Create " ++ toString (groupLookup type_groups "informational").length
        ++ " educational blog posts or guides"]
    else []
  let a3 : List String :=
    if (type_groups.find? fun p => p.1 == "commercial").isSome then
      ["Optimize " ++ toString (groupLookup type_groups "commercial").length
        ++ " product/service pages"]
    else []
  let a4 : List String :=
    if (type_groups.find? fun p => p.1 == "local").isSome then
      ["Develop " ++ toString (groupLookup type_groups "local").length
        ++ " location-specific content pieces"]
    else []
  let a5 : List String :=
    if (intent_groups.find? fun p => p.1 == "transactional").isSome then
      ["Create " ++ toString (groupLookup intent_groups "transactional").length
        ++ " conversion-focused landing pages"]
    else []
  let a6 : List String :=
    if (intent_groups.find? fun p => p.1 == "informational").isSome then
      ["Develop " ++ toString (groupLookup intent_groups "informational").length
        ++ " educational resources"]
    else []
  a1 ++ a2 ++ a3 ++ a4 ++ a5 ++ a6

/-- The value `generate_content_strategy` returns: either the
`{'message': ...}` dict for an empty input, or the full strategy dict. -/
structure ContentStrategy where
  total_opportunities : ℕ
  high_priority : ℕ
  medium_priority : ℕ
  low_priority : ℕ
  keyword_type_breakdown : List (String × String)
  intent_breakdown : List (String × String)
  recommended_actions : List String
  quick_wins : List Opportunity
  high_impact_targets : List Opportunity
deriving DecidableEq, Repr

/-- Result of `generate_content_strategy` on the non-raising paths. -/
inductive StrategyResult where
  | message (m : String)
  | strategy (s : ContentStrategy)
deriving DecidableEq, Repr

/-- `ContentGapFinder.generate_content_strategy` (lines 494-543).  The
strategy dict literal evaluates its entries in source order, so the
`dict(type_groups.keys())` entry is evaluated first and its `ValueError`
(raised whenever some keyword-type name does not have length 2) propagates
before `intent_breakdown`, `generate_action_plan` and the remaining entries
are computed. -/
def generate_content_strategy (missing_keywords : List Opportunity) (top_n : ℕ) :
    Except String StrategyResult :=
  if missing_keywords = [] then
    Except.ok (StrategyResult.message "No keyword opportunities found")
  else
    let top_opportunities := missing_keywords.take top_n
    let priority_groups := groupByKey (fun o => o.priority) top_opportunities
    let type_groups := groupByKey (fun o => o.keyword_type) top_opportunities
    let intent_groups := groupByKey (fun o => o.search_intent) top_opportunities
    do
      let keyword_type_breakdown ← pyDictOfStrings (type_groups.map Prod.fst)
      let intent_breakdown ← pyDictOfStrings (intent_groups.map Prod.fst)
      Except.ok (StrategyResult.strategy
        { total_opportunities := missing_keywords.length
          high_priority := (groupLookup priority_groups "high").length
          medium_priority := (groupLookup priority_groups "medium").length
          low_priority := (groupLookup priority_groups "low").length
          keyword_type_breakdown := keyword_type_breakdown
          intent_breakdown := intent_breakdown
          recommended_actions := generate_action_plan priority_groups type_groups intent_groups
          quick_wins :=
            (top_opportunities.filter fun kw => kw.estimated_difficulty == "low").take 5
          high_impact_targets :=
            (top_opportunities.filter fun kw => kw.priority == "high").take 5 })

/-- The competitor-keyword map of the end-to-end scenario (§8 of the spec
and `tests/test_gap_finder.py`), in insertion order. -/
def scenarioCompetitor : List (String × KeywordData) :=
  [("seo optimization", ⟨10, 5, 80⟩),
   ("digital marketing", ⟨8, 4, 75⟩),
   ("content strategy", ⟨6, 3, 70⟩)]

/-- The user-keyword keys of the end-to-end scenario. -/
def scenarioUser : List String :=
  ["seo optimization", "digital marketing"]

/-! ## Spec-level definitions

These follow the *claims'* wording (for the refinement claims C3, C4, C9)
and are compared against the embedded source functions above. -/

/-- The Jaccard index of two token sets as the spec describes it
(`|A∩B| / |A∪B|`, taken to be 0 when the union is empty). -/
def jaccardSpec (A B : Finset (List Char)) : ℚ :=
  if (A ∪ B).card = 0 then 0 else ((A ∩ B).card : ℚ) / ((A ∪ B).card : ℚ)

/-- The opportunity-score formula exactly as claim C3 states it: the five
independently capped components summed and clamped to at most 100, the
relevance term being the capped sum of user-keyword Jaccard indices
weighted by 3. -/
def opportunityScoreSpec (frequency document_frequency : ℕ) (avg_importance : ℚ)
    (keyword : String) (user_keywords : List String) : ℚ :=
  min (min ((frequency : ℚ) * 2) 30 + min ((document_frequency : ℚ) * 5) 25
      + min (avg_importance / 5) 20 + min ((wordCount keyword : ℚ) * 2) 10
      + min ((user_keywords.map fun uk =>
          jaccardSpec (tokenSet keyword) (tokenSet uk) * 3).sum) 15)
    100

/-- The semantic-similarity formula exactly as claim C4 states it: 0 when
either case-folded token set is empty, else `min(J + min(0.1 * p, 0.3), 1)`
where `J` is the Jaccard index and `p` counts the token pairs in which one
word is a substring of the other. -/
def semanticSimilaritySpec (keyword1 keyword2 : String) : ℚ :=
  let A := tokenSet keyword1
  let B := tokenSet keyword2
  if A = ∅ ∨ B = ∅ then 0
  else
    let J : ℚ := ((A ∩ B).card : ℚ) / ((A ∪ B).card : ℚ)
    let p := ((A ×ˢ B).filter fun q => (isSubstrOf q.1 q.2 || isSubstrOf q.2 q.1) = true).card
    min (J + min ((1 / 10) * (p : ℚ)) (3 / 10)) 1

/-- Claim-level predicate for C6: the (lowercased) keyword contains some
indicator of the given set as a substring. -/
def containsIndicator (indicators : List String) (keyword : String) : Prop :=
  ∃ ind ∈ indicators, isSubstrOf ind.data (pyLower keyword.data) = true

instance (indicators : List String) (keyword : String) :
    Decidable (containsIndicator indicators keyword) :=
  inferInstanceAs
    (Decidable (∃ ind ∈ indicators, isSubstrOf ind.data (pyLower keyword.data) = true))

/-! ## Helper lemmas -/

theorem matchesAny_eq_true_iff (inds : List String) (kl : List Char) :
    matchesAny inds kl = true ↔ ∃ ind ∈ inds, isSubstrOf ind.data kl = true := by
  simp [matchesAny, List.any_eq_true]

/-- The relevance loop of the source computes exactly the capped, weighted
Jaccard sum of the spec. -/
theorem calculate_content_relevance_eq (keyword : String) (user_keywords : List String) :
    calculate_content_relevance keyword user_keywords
      = min ((user_keywords.map fun uk =>
          jaccardSpec (tokenSet keyword) (tokenSet uk) * 3).sum) 15 := by
  by_cases h : user_keywords = []
  · subst h
    simp [calculate_content_relevance]
  · rw [calculate_content_relevance, if_neg h]
    have hfun : ∀ uk : String,
        (if 0 < ((tokenSet keyword ∪ tokenSet uk).card : ℕ) then
            (((tokenSet keyword ∩ tokenSet uk).card : ℚ)
              / ((tokenSet keyword ∪ tokenSet uk).card : ℚ)) * 3
          else 0)
        = jaccardSpec (tokenSet keyword) (tokenSet uk) * 3 := by
      intro uk
      rw [jaccardSpec]
      by_cases hc : (tokenSet keyword ∪ tokenSet uk).card = 0
      · rw [if_pos hc, if_neg (by omega)]
        ring
      · rw [if_neg hc, if_pos (by omega)]
    simp only [hfun]

theorem calculate_content_relevance_nonneg (keyword : String) (user_keywords : List String) :
    0 ≤ calculate_content_relevance keyword user_keywords := by
  rw [calculate_content_relevance_eq]
  refine le_min ?_ (by norm_num)
  refine List.sum_nonneg fun x hx => ?_
  obtain ⟨uk, -, rfl⟩ := List.mem_map.mp hx
  have : (0 : ℚ) ≤ jaccardSpec (tokenSet keyword) (tokenSet uk) := by
    rw [jaccardSpec]
    split
    · exact le_refl 0
    · positivity
  linarith

/-! ## Claims C3-C6 -/

/-- **C3.** `calculate_opportunity_score` returns exactly
`min(frequency*2,30) + min(document_frequency*5,25) + min(avg_importance/5,20)
+ min(word_count*2,10) + min(Σ jaccard*3,15)` clamped to at most 100 (the
relevance term degenerating to 0 on an empty user map, since the sum over no
keywords is 0); and under the §3 invariants (`frequency`,
`document_frequency` non-negative integers, `avg_importance ∈ [0,100]`) the
result lies in `[0,100]`. -/
theorem c3_opportunity_score_formula :
    ∀ (frequency document_frequency : ℕ) (avg_importance : ℚ) (keyword : String)
      (user_keywords : List String),
      calculate_opportunity_score frequency document_frequency avg_importance
          keyword user_keywords
        = opportunityScoreSpec frequency document_frequency avg_importance
            keyword user_keywords
      ∧ (0 ≤ avg_importance → avg_importance ≤ 100 →
          0 ≤ calculate_opportunity_score frequency document_frequency avg_importance
                keyword user_keywords
          ∧ calculate_opportunity_score frequency document_frequency avg_importance
                keyword user_keywords ≤ 100) := by
  intro frequency document_frequency avg_importance keyword user_keywords
  constructor
  · rw [calculate_opportunity_score, opportunityScoreSpec, calculate_content_relevance_eq]
  · intro h0 _h100
    constructor
    · rw [calculate_opportunity_score]
      have h1 : (0 : ℚ) ≤ min ((frequency : ℚ) * 2) 30 := le_min (by positivity) (by norm_num)
      have h2 : (0 : ℚ) ≤ min ((document_frequency : ℚ) * 5) 25 :=
        le_min (by positivity) (by norm_num)
      have h3 : (0 : ℚ) ≤ min (avg_importance / 5) 20 := le_min (by positivity) (by norm_num)
      have h4 : (0 : ℚ) ≤ min ((wordCount keyword : ℚ) * 2) 10 :=
        le_min (by positivity) (by norm_num)
      have h5 := calculate_content_relevance_nonneg keyword user_keywords
      exact le_min (by linarith) (by norm_num)
    · rw [calculate_opportunity_score]
      exact min_le_right _ _

/-- Witness for C3 at a concrete input satisfying the hypotheses. -/
theorem c3_opportunity_score_formula_witness :
    calculate_opportunity_score 10 5 80 "seo optimization" scenarioUser
      = opportunityScoreSpec 10 5 80 "seo optimization" scenarioUser
    ∧ 0 ≤ calculate_opportunity_score 10 5 80 "seo optimization" scenarioUser
    ∧ calculate_opportunity_score 10 5 80 "seo optimization" scenarioUser ≤ 100 := by
  obtain ⟨h1, h2⟩ := c3_opportunity_score_formula 10 5 80 "seo optimization" scenarioUser
  exact ⟨h1, h2 (by norm_num) (by norm_num)⟩

/-- **C4.** `calculate_semantic_similarity` equals the spec formula: 0 when
either case-folded whitespace-token set is empty, otherwise
`min(J + min(0.1p, 0.3), 1)` with `J` the Jaccard index and `p` the number
of substring-related token pairs; and the result always lies in `[0,1]`. -/
theorem c4_semantic_similarity_formula :
    ∀ keyword1 keyword2 : String,
      calculate_semantic_similarity keyword1 keyword2
        = semanticSimilaritySpec keyword1 keyword2
      ∧ 0 ≤ calculate_semantic_similarity keyword1 keyword2
      ∧ calculate_semantic_similarity keyword1 keyword2 ≤ 1 := by
  intro keyword1 keyword2
  have hEq : calculate_semantic_similarity keyword1 keyword2
      = semanticSimilaritySpec keyword1 keyword2 := by
    rw [calculate_semantic_similarity, semanticSimilaritySpec]
    by_cases h : tokenSet keyword1 = ∅ ∨ tokenSet keyword2 = ∅
    · rw [if_pos h, if_pos h]
    · rw [if_neg h, if_neg h]
      have hA : (tokenSet keyword1).Nonempty :=
        Finset.nonempty_iff_ne_empty.mpr (not_or.mp h).1
      have hu : 0 < (tokenSet keyword1 ∪ tokenSet keyword2).card :=
        Finset.card_pos.mpr (hA.mono Finset.subset_union_left)
      dsimp only
      rw [if_pos hu, mul_comm]
  refine ⟨hEq, ?_, ?_⟩
  · rw [hEq, semanticSimilaritySpec]
    split
    · exact le_refl 0
    · refine le_min (add_nonneg (by positivity)
        (le_min (by positivity) (by norm_num))) (by norm_num)
  · rw [hEq, semanticSimilaritySpec]
    split
    · norm_num
    · exact min_le_right _ _

/-- **C5.** `determine_priority` is a pure function of the score via the
fixed thresholds: `"high"` for scores ≥ 75, `"medium"` for scores in
[50, 75), `"low"` for everything below 50 (in particular every score below
25); no other value is ever produced, and the four concrete scores of the
spec map as stated. -/
theorem c5_determine_priority :
    (∀ s : ℚ, 75 ≤ s → determine_priority s = "high")
    ∧ (∀ s : ℚ, 50 ≤ s → s < 75 → determine_priority s = "medium")
    ∧ (∀ s : ℚ, s < 50 → determine_priority s = "low")
    ∧ (∀ s : ℚ, determine_priority s = "high" ∨ determine_priority s = "medium"
        ∨ determine_priority s = "low")
    ∧ determine_priority 80 = "high"
    ∧ determine_priority 60 = "medium"
    ∧ determine_priority 30 = "low"
    ∧ determine_priority 10 = "low" := by
  have hhigh : ∀ s : ℚ, 75 ≤ s → determine_priority s = "high" := by
    intro s h
    rw [determine_priority, if_pos h]
  have hmed : ∀ s : ℚ, 50 ≤ s → s < 75 → determine_priority s = "medium" := by
    intro s h1 h2
    rw [determine_priority, if_neg (by linarith), if_pos h1]
  have hlow : ∀ s : ℚ, s < 50 → determine_priority s = "low" := by
    intro s h
    rw [determine_priority, if_neg (by linarith), if_neg (by linarith)]
  refine ⟨hhigh, hmed, hlow, ?_, ?_, ?_, ?_, ?_⟩
  · intro s
    rw [determine_priority]
    split
    · exact Or.inl rfl
    · split
      · exact Or.inr (Or.inl rfl)
      · exact Or.inr (Or.inr rfl)
  · exact hhigh 80 (by norm_num)
  · exact hmed 60 (by norm_num) (by norm_num)
  · exact hlow 30 (by norm_num)
  · exact hlow 10 (by norm_num)

/-- Witness for C5, discharging the threshold hypotheses at score 80. -/
theorem c5_determine_priority_witness : determine_priority 80 = "high" :=
  c5_determine_priority.1 80 (by norm_num)

/-- **C6.** `classify_keyword_type` tests the indicator sets in the order
commercial, local, informational (first case-insensitive substring
containment match wins) and otherwise buckets by word count (1 → `"head"`,
2 → `"body"`, ≥ 3 → `"long_tail"`); the three concrete spec examples
classify as stated. -/
theorem c6_classify_keyword_type :
    (∀ kw : String, containsIndicator commercial_indicators kw →
        classify_keyword_type kw = "commercial")
    ∧ (∀ kw : String, ¬ containsIndicator commercial_indicators kw →
        containsIndicator local_indicators kw → classify_keyword_type kw = "local")
    ∧ (∀ kw : String, ¬ containsIndicator commercial_indicators kw →
        ¬ containsIndicator local_indicators kw →
        containsIndicator informational_indicators kw →
        classify_keyword_type kw = "informational")
    ∧ (∀ kw : String, ¬ containsIndicator commercial_indicators kw →
        ¬ containsIndicator local_indicators kw →
        ¬ containsIndicator informational_indicators kw →
        wordCount kw = 1 → classify_keyword_type kw = "head")
    ∧ (∀ kw : String, ¬ containsIndicator commercial_indicators kw →
        ¬ containsIndicator local_indicators kw →
        ¬ containsIndicator informational_indicators kw →
        wordCount kw = 2 → classify_keyword_type kw = "body")
    ∧ (∀ kw : String, ¬ containsIndicator commercial_indicators kw →
        ¬ containsIndicator local_indicators kw →
        ¬ containsIndicator informational_indicators kw →
        3 ≤ wordCount kw → classify_keyword_type kw = "long_tail")
    ∧ classify_keyword_type "buy best products" = "commercial"
    ∧ classify_keyword_type "how to optimize seo" = "informational"
    ∧ classify_keyword_type "services near me" = "local" := by
  have toBool : ∀ (inds : List String) (kw : String), containsIndicator inds kw →
      matchesAny inds (pyLower kw.data) = true := fun inds kw h =>
    (matchesAny_eq_true_iff inds (pyLower kw.data)).mpr h
  have toBoolNeg : ∀ (inds : List String) (kw : String), ¬ containsIndicator inds kw →
      matchesAny inds (pyLower kw.data) = false := by
    intro inds kw h
    have hnot : ¬ matchesAny inds (pyLower kw.data) = true := fun hb =>
      h ((matchesAny_eq_true_iff inds (pyLower kw.data)).mp hb)
    simpa using hnot
  refine ⟨?_, ?_, ?_, ?_, ?_, ?_, by decide, by decide, by decide⟩
  · intro kw h
    rw [classify_keyword_type]
    simp [toBool _ _ h]
  · intro kw h1 h2
    rw [classify_keyword_type]
    simp [toBoolNeg _ _ h1, toBool _ _ h2]
  · intro kw h1 h2 h3
    rw [classify_keyword_type]
    simp [toBoolNeg _ _ h1, toBoolNeg _ _ h2, toBool _ _ h3]
  · intro kw h1 h2 h3 hw
    rw [classify_keyword_type]
    simp [toBoolNeg _ _ h1, toBoolNeg _ _ h2, toBoolNeg _ _ h3, hw]
  · intro kw h1 h2 h3 hw
    rw [classify_keyword_type]
    simp [toBoolNeg _ _ h1, toBoolNeg _ _ h2, toBoolNeg _ _ h3, hw]
  · intro kw h1 h2 h3 hw
    rw [classify_keyword_type]
    have hw1 : wordCount kw ≠ 1 := by omega
    have hw2 : wordCount kw ≠ 2 := by omega
    simp [toBoolNeg _ _ h1, toBoolNeg _ _ h2, toBoolNeg _ _ h3, hw1, hw2]

/-- Witness for C6, discharging the no-indicator hypotheses at the
single-word keyword `"seo"`. -/
theorem c6_classify_keyword_type_witness : classify_keyword_type "seo" = "head" :=
  c6_classify_keyword_type.2.2.2.1 "seo" (by decide) (by decide) (by decide) (by decide)

/-! ## Sorting lemmas (stability of the final descending sort) -/

theorem filter_score_orderedInsert (q : ℚ) (x : Opportunity) (l : List Opportunity) :
    (List.orderedInsert scoreGe x l).filter (fun o => decide (o.opportunity_score = q))
      = if x.opportunity_score = q
          then x :: l.filter (fun o => decide (o.opportunity_score = q))
          else l.filter (fun o => decide (o.opportunity_score = q)) := by
  induction l with
  | nil =>
    by_cases hx : x.opportunity_score = q
    · simp [List.orderedInsert, hx]
    · simp [List.orderedInsert, hx]
  | cons y ys ih =>
    rw [List.orderedInsert]
    by_cases h : scoreGe x y
    · rw [if_pos h]
      by_cases hx : x.opportunity_score = q <;> simp [List.filter_cons, hx]
    · rw [if_neg h]
      have hlt : x.opportunity_score < y.opportunity_score := not_le.mp h
      by_cases hy : y.opportunity_score = q
      · have hx : ¬ x.opportunity_score = q := by
          rw [hy] at hlt
          exact ne_of_lt hlt
        simp [List.filter_cons, hy, hx, ih]
      · by_cases hx : x.opportunity_score = q <;> simp [List.filter_cons, hy, hx, ih]

theorem filter_score_sortOpportunitiesDesc (q : ℚ) (l : List Opportunity) :
    (sortOpportunitiesDesc l).filter (fun o => decide (o.opportunity_score = q))
      = l.filter (fun o => decide (o.opportunity_score = q)) := by
  induction l with
  | nil => rfl
  | cons x xs ih =>
    have ih' : (List.insertionSort scoreGe xs).filter
        (fun o => decide (o.opportunity_score = q))
        = xs.filter (fun o => decide (o.opportunity_score = q)) := ih
    rw [sortOpportunitiesDesc, List.insertionSort, filter_score_orderedInsert]
    by_cases hx : x.opportunity_score = q
    · rw [if_pos hx, ih']
      simp [List.filter_cons, hx]
    · rw [if_neg hx, ih']
      simp [List.filter_cons, hx]

theorem unsorted_empty_user (comp : List (String × KeywordData)) (thr : ℚ) :
    missingOpportunitiesUnsorted comp [] thr
      = comp.map fun p => analyze_keyword_opportunity p.1 p.2 [] := by
  rw [missingOpportunitiesUnsorted]
  have h1 : find_semantic_gaps comp [] thr = [] := rfl
  rw [h1, List.append_nil]
  have h2 : comp.filter (fun ckd => !(List.contains ([] : List String) ckd.1)) = comp :=
    List.filter_eq_self.mpr fun a _ => rfl
  rw [h2]

/-! ## Claims C7-C10 -/

/-- **C7.** The list returned by `find_missing_keywords` is the stable
descending sort of the concatenation of the step-1 direct-miss records and
the step-3 semantic-gap records: it is sorted in non-increasing order of
`opportunity_score`, and for every score value the records carrying that
score appear exactly as they do in the pre-sort production order (step-1
records first, then the semantic-gap records, each in iteration order). -/
theorem c7_sorted_stable :
    ∀ (comp : List (String × KeywordData)) (user : List String) (thr : ℚ),
      find_missing_keywords comp user thr
          = sortOpportunitiesDesc (missingOpportunitiesUnsorted comp user thr)
      ∧ List.Sorted (fun a b : Opportunity => b.opportunity_score ≤ a.opportunity_score)
          (find_missing_keywords comp user thr)
      ∧ ∀ q : ℚ,
          (find_missing_keywords comp user thr).filter
              (fun o => decide (o.opportunity_score = q))
            = (missingOpportunitiesUnsorted comp user thr).filter
                (fun o => decide (o.opportunity_score = q)) := by
  intro comp user thr
  refine ⟨rfl, ?_, ?_⟩
  · exact List.sorted_insertionSort scoreGe (missingOpportunitiesUnsorted comp user thr)
  · intro q
    exact filter_score_sortOpportunitiesDesc q (missingOpportunitiesUnsorted comp user thr)

/-- Witness for C7 at the concrete scenario inputs and score value 45. -/
theorem c7_sorted_stable_witness :
    (find_missing_keywords scenarioCompetitor scenarioUser (4 / 5)).filter
        (fun o => decide (o.opportunity_score = (45 : ℚ)))
      = (missingOpportunitiesUnsorted scenarioCompetitor scenarioUser (4 / 5)).filter
          (fun o => decide (o.opportunity_score = (45 : ℚ))) :=
  (c7_sorted_stable scenarioCompetitor scenarioUser (4 / 5)).2.2 45

/-- **C8.** With an empty user map, `find_semantic_gaps` returns the empty
list and `find_missing_keywords` consists of exactly one direct-absence
record per competitor keyword (a permutation of the per-key records, all
with `gap_type = none`, whose keywords are a permutation of the competitor
keys); with an empty competitor map the result is empty. -/
theorem c8_empty_inputs :
    ∀ (comp : List (String × KeywordData)) (user : List String) (thr : ℚ),
      find_semantic_gaps comp [] thr = []
      ∧ (find_missing_keywords comp [] thr).Perm
          (comp.map fun p => analyze_keyword_opportunity p.1 p.2 [])
      ∧ ((find_missing_keywords comp [] thr).map fun o => o.keyword).Perm
          (comp.map Prod.fst)
      ∧ (∀ r ∈ find_missing_keywords comp [] thr, r.gap_type = none)
      ∧ find_missing_keywords [] user thr = [] := by
  intro comp user thr
  have hperm : (find_missing_keywords comp [] thr).Perm
      (comp.map fun p => analyze_keyword_opportunity p.1 p.2 []) := by
    have h := List.perm_insertionSort scoreGe (missingOpportunitiesUnsorted comp [] thr)
    have h2 : (missingOpportunitiesUnsorted comp [] thr).Perm
        (comp.map fun p => analyze_keyword_opportunity p.1 p.2 []) := by
      rw [unsorted_empty_user]
    exact h.trans h2
  refine ⟨rfl, hperm, ?_, ?_, ?_⟩
  · have h2 := hperm.map (fun o : Opportunity => o.keyword)
    rw [List.map_map] at h2
    have hfun : ((fun o : Opportunity => o.keyword)
        ∘ fun p : String × KeywordData => analyze_keyword_opportunity p.1 p.2 [])
        = Prod.fst := funext fun p => rfl
    rw [hfun] at h2
    exact h2
  · intro r hr
    obtain ⟨p, -, rfl⟩ := List.mem_map.mp (hperm.mem_iff.mp hr)
    rfl
  · have hnil : missingOpportunitiesUnsorted [] user thr = [] := by
      simp [missingOpportunitiesUnsorted, find_semantic_gaps]
    rw [find_missing_keywords, hnil]
    rfl

/-- Witness for C8, discharging the membership hypothesis of the
`gap_type = none` conjunct at a concrete record of the scenario run. -/
theorem c8_empty_inputs_witness :
    (analyze_keyword_opportunity "seo optimization" ⟨10, 5, 80⟩ []).gap_type = none :=
  (c8_empty_inputs scenarioCompetitor [] (4 / 5)).2.2.2.1
    (analyze_keyword_opportunity "seo optimization" ⟨10, 5, 80⟩ [])
    (by with_unfolding_all decide)

/-- The filter of `find_related_user_keywords` keeps exactly the user keys
whose plain Jaccard similarity with the keyword is at least 0.3. -/
theorem find_related_user_keywords_eq (keyword : String) (user_keywords : List String) :
    find_related_user_keywords keyword user_keywords
      = (user_keywords.filter fun uk =>
          decide ((3 : ℚ) / 10 ≤ jaccardSpec (tokenSet keyword) (tokenSet uk))).take 5 := by
  by_cases h : user_keywords = []
  · subst h
    rfl
  · rw [find_related_user_keywords, if_neg h]
    dsimp only
    congr 1
    apply List.filter_congr
    intro uk _
    by_cases hov : 0 < (tokenSet keyword ∩ tokenSet uk).card
    · rw [if_pos hov]
      have hle : (tokenSet keyword ∩ tokenSet uk).card
          ≤ (tokenSet keyword ∪ tokenSet uk).card :=
        Finset.card_le_card Finset.inter_subset_union
      have hu : ¬ (tokenSet keyword ∪ tokenSet uk).card = 0 := by omega
      rw [jaccardSpec, if_neg hu]
    · rw [if_neg hov]
      have hz : ((tokenSet keyword ∩ tokenSet uk).card : ℚ) = 0 := by
        have : (tokenSet keyword ∩ tokenSet uk).card = 0 := by omega
        exact_mod_cast congrArg (Nat.cast : ℕ → ℚ) this
      have hj : jaccardSpec (tokenSet keyword) (tokenSet uk) = 0 := by
        rw [jaccardSpec]
        split
        · rfl
        · rw [hz, zero_div]
      rw [hj]
      symm
      exact decide_eq_false (by norm_num)

/-- **C9.** `find_related_user_keywords` returns at most 5 strings; each is
a user key whose plain Jaccard token similarity with the keyword is at
least 0.3; the result is the first such keys in map-iteration order (the
0.3-filter of the key list truncated to 5, not reordered); and the empty
user map yields the empty list. -/
theorem c9_find_related :
    ∀ (keyword : String) (user_keywords : List String),
      (find_related_user_keywords keyword user_keywords).length ≤ 5
      ∧ (∀ s ∈ find_related_user_keywords keyword user_keywords,
          s ∈ user_keywords
          ∧ (3 : ℚ) / 10 ≤ jaccardSpec (tokenSet keyword) (tokenSet s))
      ∧ find_related_user_keywords keyword user_keywords
          = (user_keywords.filter fun uk =>
              decide ((3 : ℚ) / 10 ≤ jaccardSpec (tokenSet keyword) (tokenSet uk))).take 5
      ∧ find_related_user_keywords keyword [] = [] := by
  intro keyword user_keywords
  refine ⟨?_, ?_, find_related_user_keywords_eq keyword user_keywords, rfl⟩
  · rw [find_related_user_keywords_eq]
    exact List.length_take_le 5 _
  · intro s hs
    rw [find_related_user_keywords_eq] at hs
    have hs' := List.mem_of_mem_take hs
    obtain ⟨hmem, hdec⟩ := List.mem_filter.mp hs'
    exact ⟨hmem, of_decide_eq_true hdec⟩

/-- Witness for C9, discharging the membership hypothesis at the spec's
example: `"seo optimization"` is related to `"content optimization"`. -/
theorem c9_find_related_witness :
    "seo optimization" ∈ scenarioUser
    ∧ (3 : ℚ) / 10 ≤ jaccardSpec (tokenSet "content optimization")
        (tokenSet "seo optimization") :=
  (c9_find_related "content optimization" scenarioUser).2.1
    "seo optimization" (by with_unfolding_all decide)

/-- With no user keywords the relevance bonus is 0 and the clamp at 100 is
slack: the score is exactly the four-component sum, which is at most 85. -/
theorem calculate_opportunity_score_empty_user (frequency document_frequency : ℕ)
    (avg_importance : ℚ) (keyword : String) :
    calculate_opportunity_score frequency document_frequency avg_importance keyword []
      = min ((frequency : ℚ) * 2) 30 + min ((document_frequency : ℚ) * 5) 25
        + min (avg_importance / 5) 20 + min ((wordCount keyword : ℚ) * 2) 10
    ∧ calculate_opportunity_score frequency document_frequency avg_importance keyword []
        ≤ 85 := by
  have hrel : calculate_content_relevance keyword [] = 0 := by
    simp [calculate_content_relevance]
  have hsum : min ((frequency : ℚ) * 2) 30 + min ((document_frequency : ℚ) * 5) 25
      + min (avg_importance / 5) 20 + min ((wordCount keyword : ℚ) * 2) 10 ≤ 85 := by
    have h1 := min_le_right ((frequency : ℚ) * 2) 30
    have h2 := min_le_right ((document_frequency : ℚ) * 5) 25
    have h3 := min_le_right (avg_importance / 5) 20
    have h4 := min_le_right ((wordCount keyword : ℚ) * 2) 10
    linarith
  have heq : calculate_opportunity_score frequency document_frequency avg_importance keyword []
      = min ((frequency : ℚ) * 2) 30 + min ((document_frequency : ℚ) * 5) 25
        + min (avg_importance / 5) 20 + min ((wordCount keyword : ℚ) * 2) 10 := by
    rw [calculate_opportunity_score]
    rw [hrel, add_zero]
    exact min_eq_left (by linarith)
  exact ⟨heq, heq ▸ hsum⟩

/-- **C10.** With an empty user map the relevance bonus is 0, so
`calculate_opportunity_score` is exactly the unclamped four-component sum
(the 100-clamp is never binding) and is at most 85 for every keyword and
every well-formed frequency/document-frequency/importance input; hence
every record produced by `find_missing_keywords` with an empty user map has
`opportunity_score ≤ 85`. -/
theorem c10_empty_user_bound :
    (∀ (frequency document_frequency : ℕ) (avg_importance : ℚ) (keyword : String),
      0 ≤ avg_importance → avg_importance ≤ 100 →
        calculate_opportunity_score frequency document_frequency avg_importance keyword []
          = min ((frequency : ℚ) * 2) 30 + min ((document_frequency : ℚ) * 5) 25
            + min (avg_importance / 5) 20 + min ((wordCount keyword : ℚ) * 2) 10
        ∧ calculate_opportunity_score frequency document_frequency avg_importance keyword []
            ≤ 85)
    ∧ ∀ (comp : List (String × KeywordData)) (thr : ℚ),
        ∀ r ∈ find_missing_keywords comp [] thr, r.opportunity_score ≤ 85 := by
  constructor
  · intro frequency document_frequency avg_importance keyword _ _
    exact calculate_opportunity_score_empty_user frequency document_frequency
      avg_importance keyword
  · intro comp thr r hr
    have hr' : r ∈ missingOpportunitiesUnsorted comp [] thr :=
      (List.perm_insertionSort scoreGe (missingOpportunitiesUnsorted comp [] thr)).mem_iff.mp hr
    rw [unsorted_empty_user] at hr'
    obtain ⟨p, -, rfl⟩ := List.mem_map.mp hr'
    exact (calculate_opportunity_score_empty_user p.2.frequency p.2.document_frequency
      p.2.avg_importance p.1).2

/-- Witness for C10, discharging the importance-range hypotheses at a
concrete well-formed input. -/
theorem c10_empty_user_bound_witness :
    calculate_opportunity_score 10 5 80 "seo optimization" []
      = min (((10 : ℕ) : ℚ) * 2) 30 + min (((5 : ℕ) : ℚ) * 5) 25
        + min ((80 : ℚ) / 5) 20 + min ((wordCount "seo optimization" : ℚ) * 2) 10
    ∧ calculate_opportunity_score 10 5 80 "seo optimization" [] ≤ 85 :=
  c10_empty_user_bound.1 10 5 80 "seo optimization" (by norm_num) (by norm_num)

/-! ## Claims C1 and C2 (concrete evaluations at the scenario inputs) -/

/-- **C1.** Evaluating `find_missing_keywords` at the spec's end-to-end
scenario (three competitor keywords; user has `"seo optimization"` and
`"digital marketing"`; default threshold 0.8): the code produces *two*
records, both for `"content strategy"` with `competitor_frequency = 6` and
`found_in_sites = 3` — the step-1 direct-miss record and an additional
step-3 duplicate tagged `gap_type = "semantic"` — not exactly one record as
the spec's scenario and the repository's own test
(`test_find_missing_keywords`, which asserts a length of 1) state. -/
theorem c1_scenario_eval :
    (find_missing_keywords scenarioCompetitor scenarioUser (4 / 5)).map
        (fun o => (o.keyword, o.competitor_frequency, o.found_in_sites, o.gap_type))
      = [("content strategy", 6, 3, (none : Option String)),
         ("content strategy", 6, 3, some "semantic")]
    ∧ (find_missing_keywords scenarioCompetitor scenarioUser (4 / 5)).length = 2 := by
  with_unfolding_all decide

/-- **C2.** The core is *not* total: `generate_content_strategy` evaluates
`dict(type_groups.keys())`, and since every keyword-type name (here
`"local"`, of length 5) is a string whose length is not 2, Python's
`dict()` raises `ValueError` on every non-empty, well-formed input — here
the record list produced by the scenario run of `find_missing_keywords`. -/
theorem c2_generate_content_strategy_raises :
    generate_content_strategy
        (find_missing_keywords scenarioCompetitor scenarioUser (4 / 5)) 20
      = Except.error
          "ValueError: dictionary update sequence element has length 5; 2 is required" := by
  with_unfolding_all rfl

end GapFinder
